import Mathlib

/-!
Verification development for `ray_flamegraph.py`, a CLI tool that records a
CPU profile on a remote Tizen device via `sdb`, pulls the converted profile
to the host, and renders a flame graph with the Rust inferno tools.

The program is shallowly embedded as a pure function `main` from an `Input`
record (host tool availability, the strings typed by the user, the output and
success of each external invocation) to the list of observable side effects
(the `Event` trace) together with the process `Outcome`.
-/

set_option maxHeartbeats 1000000

/-- Remote path of the binary perf recording (`PERF_DATA` in the source). -/
def PERF_DATA : String := "/tmp/perf.data"

/-- Remote path of the textual perf script output (`PERF_TXT` in the source);
the same path is reused as the local destination of the pull. -/
def PERF_TXT : String := "/tmp/perf.script"

/-- Local path of the rendered SVG (`SVG_FILE` in the source). -/
def SVG_FILE : String := "/tmp/flamegraph.svg"

/-- The fixed perf options string (`perf_opts` in the source):
the format string resolves to this exact concatenation. -/
def perf_opts : String := "-F 99 --call-graph dwarf -g -o " ++ PERF_DATA

/-- Characters stripped by Python `str.strip()` with no argument
(the ASCII whitespace the tool ever meets). -/
def pyStripChars (cs : List Char) : List Char :=
  ((cs.dropWhile Char.isWhitespace).reverse.dropWhile Char.isWhitespace).reverse

/-- Python `s.strip()`. -/
def pyStrip (s : String) : String := String.mk (pyStripChars s.data)

/-- Tokeniser behind Python `s.split()` with no argument: splits on runs of
whitespace and drops empty tokens. `acc` holds the current token reversed. -/
def pyTokensAux : List Char → List Char → List (List Char)
  | [], acc => if acc.isEmpty then [] else [acc.reverse]
  | c :: cs, acc =>
    if c.isWhitespace then
      if acc.isEmpty then pyTokensAux cs [] else acc.reverse :: pyTokensAux cs []
    else pyTokensAux cs (c :: acc)

/-- Python `s.split()` with no argument. -/
def pySplit (s : String) : List String :=
  (pyTokensAux s.data []).map String.mk

/-- Characters Python `shlex.quote` leaves unquoted
(the ASCII word class plus at, percent, plus, equals, colon, comma, dot,
slash and dash). -/
def shlexSafeChar (c : Char) : Bool :=
  c.isAlphanum || c = '_' || c = '@' || c = '%' || c = '+' || c = '=' ||
  c = ':' || c = ',' || c = '.' || c = '/' || c = '-'

/-- Python `shlex.quote`: empty strings become `''`, safe strings pass
through, anything else is single-quoted with `'` escaped as `'"'"'`. -/
def shlexQuote (s : String) : String :=
  if s.data.isEmpty then "''"
  else if s.data.all shlexSafeChar then s
  else "'" ++ String.mk (s.data.flatMap
    (fun c => if c = '\'' then ['\'', '"', '\'', '"', '\''] else [c])) ++ "'"

/-- The grep pattern the attach branch builds from the stripped name:
`[` first char `]` quoted tail `$` (the `[x]` trick keeps the grep process
itself from matching; `$` anchors the match to the end of the line). -/
def grepPatternOf (name : String) : String :=
  "[" ++ String.mk [name.data.headD 'A'] ++ "]" ++
    shlexQuote (String.mk name.data.tail) ++ "$"

/-- The full remote process-query command string (`ps_cmd` in the source). -/
def psCmd (name : String) : String :=
  "ps -eo pid,comm,args | grep '" ++ grepPatternOf name ++ "'"

/-- The remote conversion command executed after recording. -/
def scriptCmd : String := "perf script -i " ++ PERF_DATA ++ " > " ++ PERF_TXT

/-- Recording command for spawn mode (`mode == "1"`). -/
def recordCmdSpawn (app : String) : String :=
  "perf record " ++ perf_opts ++ " -- " ++ app

/-- Recording command for attach mode (`mode == "2"`). -/
def recordCmdAttach (pid : String) : String :=
  "perf record " ++ perf_opts ++ " -p " ++ pid

/-- Recording command for system-wide mode (`mode == "3"`). -/
def recordCmdSystemWide : String :=
  "perf record " ++ perf_opts ++ " -a"

/-- Observable side effects of one run, in program order. `sdbPopenShell` is
the asynchronous `Popen(["sdb", "shell", cmd])` starting the recording;
`popenCollapse` is `Popen(["inferno-collapse-perf", arg], stdout=PIPE)`;
`checkCallRender` is `check_call(["inferno-flamegraph"])` with stdin wired to
the collapse pipe and stdout redirected into the already-opened SVG file. -/
inductive Event where
  | print (s : String)
  | sdbCheckOutput (cmd : String)
  | sdbPopenShell (cmd : String)
  | terminateRec
  | waitRec
  | sdbCheckCallShell (cmd : String)
  | sdbPull (remote : String) (localDest : String)
  | openWrite (path : String)
  | popenCollapse (arg : String)
  | checkCallRender
  | browserOpen (url : String)
  deriving DecidableEq, Repr

/-- How the process ends: `exited n` models `sys.exit(n)` and normal return
(`exited 0`); `raised e` models an unhandled Python exception `e`, which makes
the interpreter terminate with status 1. -/
inductive Outcome where
  | exited (code : Nat)
  | raised (exn : String)
  deriving DecidableEq, Repr

/-- The process exit status an `Outcome` produces: an unhandled exception
terminates the interpreter with status 1. -/
def exitCodeOf : Outcome → Nat
  | .exited n => n
  | .raised _ => 1

/-- One run's environment: which host tools exist, what the user types, what
the remote query prints, and whether each checked external call succeeds.
`recExitCode` and `collapseExitCode` are the exit statuses of the recording
process (after `terminate`) and of the collapse process; the source never
reads either, so `main` ignores them. `browserOk` is the ignored return value
of `webbrowser.open`. -/
structure Input where
  hasSdb : Bool
  hasInfernoFlamegraph : Bool
  hasInfernoCollapsePerf : Bool
  modeRaw : String
  appRaw : String
  nameRaw : String
  psQueryOk : Bool
  psOut : String
  scriptOk : Bool
  pullOk : Bool
  renderOk : Bool
  recExitCode : Int
  collapseExitCode : Int
  browserOk : Bool
  deriving Repr

/-- Remediation hint printed when `sdb` is missing. -/
def sdbHint : String :=
  "Install the Tizen SDK (provides `sdb`).\n  Download: https://developer.tizen.org/development/sdk-download"

/-- Remediation hint printed when either inferno tool is missing. -/
def infernoHint : String :=
  "Install Rust inferno tools:\n  cargo install inferno"

/-- The `missing` list accumulated by `check_prerequisites`: `sdb` first, then
a single `inferno` entry when either inferno tool is absent. -/
def missingOf (i : Input) : List (String × String) :=
  (if i.hasSdb then [] else [("sdb", sdbHint)]) ++
  (if i.hasInfernoFlamegraph && i.hasInfernoCollapsePerf then []
   else [("inferno", infernoHint)])

/-- The print events `check_prerequisites` emits for a non-empty missing
list: a header line and one report line per missing tool. -/
def reportEvents (missing : List (String × String)) : List Event :=
  Event.print "Missing prerequisites:\n" ::
    missing.map (fun p => Event.print ("  - " ++ p.1 ++ " not found. " ++ p.2 ++ "\n"))

/-- The menu print events and the mode prompt, in source order. -/
def menuEvents : List Event :=
  [Event.print "\nSelect recording mode:",
   Event.print " 1) Spawn app under perf on device",
   Event.print " 2) Attach to a running app by PID/name on device",
   Event.print " 3) System-wide (-a) recording on device",
   Event.print "Choice [1/2/3]: "]

/-- Events from starting the recording up to and including the remote
`perf script` conversion call, for a given record command. -/
def preRecordEvents (cmd : String) : List Event :=
  [Event.print "\nStarting perf on device…",
   Event.print "Press Enter to stop recording.",
   Event.sdbPopenShell cmd,
   Event.terminateRec,
   Event.waitRec,
   Event.print "Converting perf.data -> perf.script on device…",
   Event.sdbCheckCallShell scriptCmd]

/-- The shared tail of every successful mode branch: record, stop on the
keypress, convert, pull, render, open the browser. Each `check_call` that
fails raises `CalledProcessError`, ending the run there. -/
def sessionTail (i : Input) (cmd : String) : List Event × Outcome :=
  if i.scriptOk = false then
    (preRecordEvents cmd, Outcome.raised "CalledProcessError")
  else if i.pullOk = false then
    (preRecordEvents cmd ++
      [Event.print "Pulling perf.script to host …",
       Event.sdbPull PERF_TXT PERF_TXT],
     Outcome.raised "CalledProcessError")
  else if i.renderOk = false then
    (preRecordEvents cmd ++
      [Event.print "Pulling perf.script to host …",
       Event.sdbPull PERF_TXT PERF_TXT,
       Event.print "Generating flamegraph.svg …",
       Event.openWrite SVG_FILE,
       Event.popenCollapse PERF_TXT,
       Event.checkCallRender],
     Outcome.raised "CalledProcessError")
  else
    (preRecordEvents cmd ++
      [Event.print "Pulling perf.script to host …",
       Event.sdbPull PERF_TXT PERF_TXT,
       Event.print "Generating flamegraph.svg …",
       Event.openWrite SVG_FILE,
       Event.popenCollapse PERF_TXT,
       Event.checkCallRender,
       Event.print ("Flamegraph generated: " ++ SVG_FILE),
       Event.browserOpen ("file://" ++ SVG_FILE)],
     Outcome.exited 0)

/-- Prepends the events already emitted before the session tail runs. -/
def sessionCont (i : Input) (pre : List Event) (cmd : String) : List Event × Outcome :=
  ((sessionTail i cmd).1 |> (pre ++ ·), (sessionTail i cmd).2)

/-- The attach-mode prompt event. -/
def namePromptEvent : Event :=
  Event.print "Enter process name substring (e.g. rayvision): "

/-- The whole program, `main` in `ray_flamegraph.py`: prerequisite check,
mode selection, per-mode command construction (attach mode resolves a PID by
a remote grep query and `ps_out.split()[0]`), then the shared session tail.
An empty attach name makes `name[0]` raise `IndexError` before the query;
an unrecognised mode or an empty query result calls `sys.exit(1)`. -/
def mainRun (i : Input) : List Event × Outcome :=
  if (missingOf i).isEmpty = false then
    (reportEvents (missingOf i), Outcome.exited 1)
  else if pyStrip i.modeRaw = "1" then
    sessionCont i
      (menuEvents ++ [Event.print "Enter app launch command (on device): "])
      (recordCmdSpawn (pyStrip i.appRaw))
  else if pyStrip i.modeRaw = "2" then
    (if pyStrip i.nameRaw = "" then
      (menuEvents ++ [namePromptEvent], Outcome.raised "IndexError")
    else if i.psQueryOk = false then
      (menuEvents ++ [namePromptEvent,
        Event.sdbCheckOutput (psCmd (pyStrip i.nameRaw))],
       Outcome.raised "CalledProcessError")
    else if pyStrip i.psOut = "" then
      (menuEvents ++ [namePromptEvent,
        Event.sdbCheckOutput (psCmd (pyStrip i.nameRaw)),
        Event.print "No matching process found on device."],
       Outcome.exited 1)
    else
      match pySplit i.psOut with
      | [] =>
        (menuEvents ++ [namePromptEvent,
          Event.sdbCheckOutput (psCmd (pyStrip i.nameRaw))],
         Outcome.raised "IndexError")
      | pid :: _ =>
        sessionCont i
          (menuEvents ++ [namePromptEvent,
            Event.sdbCheckOutput (psCmd (pyStrip i.nameRaw)),
            Event.print ("Found PID " ++ pid)])
          (recordCmdAttach pid))
  else if pyStrip i.modeRaw = "3" then
    sessionCont i menuEvents recordCmdSystemWide
  else
    (menuEvents ++ [Event.print "Invalid choice."], Outcome.exited 1)

/-- Atom of the basic-regular-expression fragment the generated patterns
use: a literal character or a single-character bracket expression. -/
inductive GAtom where
  | lit (c : Char)
  | cls (c : Char)
  deriving DecidableEq, Repr

/-- Characters that are plain (self-matching) in a basic regular
expression; the metacharacters the matcher refuses to treat as literals. -/
def isPlainBRE (c : Char) : Bool :=
  !(c = '[' || c = ']' || c = '\\' || c = '.' || c = '*' || c = '^' || c = '$')

/-- Parses the supported BRE fragment: single-character bracket expressions
and plain literal characters. Unsupported constructs yield `none`. -/
def parseAtoms : List Char → Option (List GAtom)
  | [] => some []
  | c :: rest =>
    if c = '[' then
      match rest with
      | c2 :: d :: rest2 =>
        if d = ']' then (parseAtoms rest2).map (fun as => GAtom.cls c2 :: as)
        else none
      | _ => none
    else if isPlainBRE c then (parseAtoms rest).map (fun as => GAtom.lit c :: as)
    else none

/-- Whether one atom matches one character. -/
def atomMatch : GAtom → Char → Bool
  | .lit c, d => c = d
  | .cls c, d => c = d

/-- Whether the atom list matches the character list exactly (same length,
atom by atom). -/
def matchExact : List GAtom → List Char → Bool
  | [], [] => true
  | a :: as, c :: cs => atomMatch a c && matchExact as cs
  | _, _ => false

/-- Whether the atom list matches some prefix of the character list. -/
def matchFromHere : List GAtom → List Char → Bool
  | [], _ => true
  | _ :: _, [] => false
  | a :: as, c :: cs => atomMatch a c && matchFromHere as cs

/-- grep semantics for the supported fragment: a trailing `$` anchors the
match to the end of the line, otherwise the pattern may match anywhere. -/
def grepMatchL (pat line : List Char) : Bool :=
  if pat.getLast? = some '$' then
    match parseAtoms pat.dropLast with
    | some atoms => line.tails.any (fun t => matchExact atoms t)
    | none => false
  else
    match parseAtoms pat with
    | some atoms => line.tails.any (fun t => matchFromHere atoms t)
    | none => false

/-- grep on strings. -/
def grepLineMatch (pat line : String) : Bool := grepMatchL pat.data line.data

/-- Whether `sub` occurs anywhere inside `s` (Python `sub in s`). -/
def strContains (s sub : String) : Bool :=
  s.data.tails.any (fun t => sub.data.isPrefixOf t)

/-- The first line of a string (everything before the first newline). -/
def firstLine (s : String) : String :=
  String.mk (s.data.takeWhile (fun c => !(c = '\n')))

/-- A name the attach query handles cleanly: at least two characters, all
alphanumeric (so shlex quoting is the identity and no character is a BRE
metacharacter). -/
def plainName (name : String) : Bool :=
  decide (2 ≤ name.data.length) && name.data.all (fun c => c.isAlphanum)

/-! ### Basic lemmas about the Python string helpers -/

/-- Splitting distributes over a newline: tokens of `a ++ '\n' :: b` are the
tokens of `a` followed by the tokens of `b`. -/
theorem pyTokensAux_append_newline (a : List Char) :
    ∀ (acc b : List Char),
      pyTokensAux (a ++ '\n' :: b) acc = pyTokensAux a acc ++ pyTokensAux b [] := by
  induction a with
  | nil =>
    intro acc b
    simp only [List.nil_append, pyTokensAux]
    have hws : ('\n').isWhitespace = true := by decide
    rw [if_pos hws]
    by_cases hacc : acc.isEmpty
    · rw [if_pos hacc, if_pos hacc, List.nil_append]
    · rw [if_neg hacc, if_neg hacc]
      simp
  | cons c cs ih =>
    intro acc b
    simp only [List.cons_append, pyTokensAux, List.append_eq]
    by_cases hc : c.isWhitespace
    · rw [if_pos hc, if_pos hc]
      by_cases hacc : acc.isEmpty
      · rw [if_pos hacc, if_pos hacc, ih]
      · rw [if_neg hacc, if_neg hacc, ih, List.cons_append]
    · rw [if_neg hc, if_neg hc, ih]

/-- The tokeniser returns no tokens exactly when the accumulator is empty and
every remaining character is whitespace. -/
theorem pyTokensAux_eq_nil_iff :
    ∀ (cs acc : List Char),
      pyTokensAux cs acc = [] ↔ acc = [] ∧ ∀ c ∈ cs, c.isWhitespace = true := by
  intro cs
  induction cs with
  | nil =>
    intro acc
    simp only [pyTokensAux, List.not_mem_nil]
    by_cases hacc : acc.isEmpty
    · rw [if_pos hacc]
      simp [List.isEmpty_iff.mp hacc]
    · rw [if_neg hacc]
      have : acc ≠ [] := fun h => hacc (by simp [h])
      simp [this]
  | cons c cs ih =>
    intro acc
    simp only [pyTokensAux]
    by_cases hc : c.isWhitespace
    · rw [if_pos hc]
      by_cases hacc : acc.isEmpty
      · rw [if_pos hacc, ih]
        simp [List.isEmpty_iff.mp hacc, hc]
      · rw [if_neg hacc]
        have : acc ≠ [] := fun h => hacc (by simp [h])
        simp [this]
    · rw [if_neg hc, ih]
      have : c :: acc ≠ [] := by simp
      simp [this, hc]

/-- Stripping yields the empty list exactly when everything is whitespace. -/
theorem pyStripChars_eq_nil_iff (cs : List Char) :
    pyStripChars cs = [] ↔ ∀ c ∈ cs, c.isWhitespace = true := by
  unfold pyStripChars
  rw [List.reverse_eq_nil_iff, List.dropWhile_eq_nil_iff]
  constructor
  · intro h c hc
    have hsplit := List.takeWhile_append_dropWhile Char.isWhitespace cs
    rw [← hsplit] at hc
    rcases List.mem_append.mp hc with h1 | h1
    · exact List.mem_takeWhile_imp h1
    · exact h _ (List.mem_reverse.mpr h1)
  · intro h c hc
    exact h _ (List.dropWhile_subset _ (List.mem_reverse.mp hc))

/-- `s.strip()` is empty exactly when `s` is all whitespace. -/
theorem pyStrip_eq_empty_iff (s : String) :
    pyStrip s = "" ↔ ∀ c ∈ s.data, c.isWhitespace = true := by
  constructor
  · intro h
    exact (pyStripChars_eq_nil_iff s.data).mp (congrArg String.data h)
  · intro h
    unfold pyStrip
    rw [(pyStripChars_eq_nil_iff s.data).mpr h]

/-- `s.split()` is empty exactly when `s` is all whitespace. -/
theorem pySplit_eq_nil_iff (s : String) :
    pySplit s = [] ↔ ∀ c ∈ s.data, c.isWhitespace = true := by
  unfold pySplit
  rw [List.map_eq_nil_iff, pyTokensAux_eq_nil_iff]
  simp

/-- A string whose strip is nonempty has at least one token. -/
theorem pySplit_ne_nil_of_strip_ne_empty {s : String} (h : pyStrip s ≠ "") :
    pySplit s ≠ [] := by
  intro hnil
  exact h ((pyStrip_eq_empty_iff s).mpr ((pySplit_eq_nil_iff s).mp hnil))

/-- The head of `dropWhile` falsifies the predicate. -/
theorem dropWhile_head_not {p : Char → Bool} :
    ∀ {cs c cs'}, List.dropWhile p cs = c :: cs' → p c = false := by
  intro cs
  induction cs with
  | nil => intro c cs' h; simp [List.dropWhile] at h
  | cons d ds ih =>
    intro c cs' h
    rw [List.dropWhile_cons] at h
    by_cases hd : p d
    · rw [if_pos hd] at h; exact ih h
    · rw [if_neg hd] at h
      cases h
      exact Bool.not_eq_true _ |>.mp hd

/-- If the first line of `s` has a first token `t`, then `t` is also the
first token of all of `s`: Python `s.split()[0]` picks it. -/
theorem pySplit_head_of_firstLine {s : String} {t : String} {ts : List String}
    (h : pySplit (firstLine s) = t :: ts) :
    ∃ rest, pySplit s = t :: rest := by
  have hdecomp := List.takeWhile_append_dropWhile
    (fun c => !(c = '\n')) s.data
  have hfl : pySplit (firstLine s) =
      (pyTokensAux (s.data.takeWhile (fun c => !(c = '\n'))) []).map String.mk := rfl
  rcases hdrop : List.dropWhile (fun c => !(c = '\n')) s.data with _ | ⟨c, cs'⟩
  · rw [hdrop, List.append_nil] at hdecomp
    refine ⟨ts, ?_⟩
    show (pyTokensAux s.data []).map String.mk = t :: ts
    rw [← hdecomp, ← hfl]
    exact h
  · have hc : c = '\n' := by
      have := dropWhile_head_not hdrop
      simpa using this
    subst hc
    rw [hdrop] at hdecomp
    show ∃ rest, (pyTokensAux s.data []).map String.mk = t :: rest
    rw [← hdecomp, pyTokensAux_append_newline, List.map_append]
    rw [hfl] at h
    rw [h]
    exact ⟨ts ++ (pyTokensAux cs' []).map String.mk, rfl⟩

/-! ### Lemmas about the grep model -/

/-- Alphanumeric characters are plain BRE characters. -/
theorem alphanum_isPlainBRE {c : Char} (h : c.isAlphanum = true) :
    isPlainBRE c = true := by
  have h1 : c ≠ '[' := fun e => by rw [e] at h; exact absurd h (by decide)
  have h2 : c ≠ ']' := fun e => by rw [e] at h; exact absurd h (by decide)
  have h3 : c ≠ '\\' := fun e => by rw [e] at h; exact absurd h (by decide)
  have h4 : c ≠ '.' := fun e => by rw [e] at h; exact absurd h (by decide)
  have h5 : c ≠ '*' := fun e => by rw [e] at h; exact absurd h (by decide)
  have h6 : c ≠ '^' := fun e => by rw [e] at h; exact absurd h (by decide)
  have h7 : c ≠ '$' := fun e => by rw [e] at h; exact absurd h (by decide)
  simp [isPlainBRE, h1, h2, h3, h4, h5, h6, h7]

/-- Alphanumeric characters are shlex-safe. -/
theorem alphanum_shlexSafe {c : Char} (h : c.isAlphanum = true) :
    shlexSafeChar c = true := by
  simp [shlexSafeChar, h]

/-- `shlex.quote` is the identity on nonempty safe strings. -/
theorem shlexQuote_of_safe (s : String) (hne : s.data ≠ [])
    (hsafe : ∀ x ∈ s.data, shlexSafeChar x = true) : shlexQuote s = s := by
  unfold shlexQuote
  rw [if_neg (by simp [hne]), if_pos (by rw [List.all_eq_true]; exact hsafe)]

/-- Parsing a list of plain characters yields the literal atoms. -/
theorem parseAtoms_plain :
    ∀ (cs : List Char), (∀ c ∈ cs, isPlainBRE c = true) →
      parseAtoms cs = some (cs.map GAtom.lit) := by
  intro cs
  induction cs with
  | nil => intro _; rfl
  | cons c cs ih =>
    intro h
    have hc : isPlainBRE c = true := h c (List.mem_cons_self c cs)
    have hne : c ≠ '[' := fun e => by rw [e] at hc; exact absurd hc (by decide)
    have htail := ih (fun x hx => h x (List.mem_cons_of_mem _ hx))
    rcases cs with _ | ⟨c2, cs2⟩
    · rw [parseAtoms.eq_3 c [] (by intro c2 d r2 he; cases he)]
      rw [if_neg hne, if_pos hc, htail]
      rfl
    · rcases cs2 with _ | ⟨d, rest2⟩
      · rw [parseAtoms.eq_3 c [c2] (by intro x y r2 he; cases he)]
        rw [if_neg hne, if_pos hc, htail]
        rfl
      · rw [parseAtoms.eq_2]
        rw [if_neg hne, if_pos hc, htail]
        rfl

/-- Parsing a single-character bracket expression. -/
theorem parseAtoms_bracket (c : Char) (rest : List Char) :
    parseAtoms ('[' :: c :: ']' :: rest) =
      (parseAtoms rest).map (fun as => GAtom.cls c :: as) := rfl

/-- An all-literal atom list matches exactly its own characters. -/
theorem matchExact_lits :
    ∀ (xs t : List Char), matchExact (xs.map GAtom.lit) t = true ↔ t = xs := by
  intro xs
  induction xs with
  | nil =>
    intro t
    cases t <;> simp [matchExact]
  | cons x xs ih =>
    intro t
    cases t with
    | nil => simp [matchExact]
    | cons c cs =>
      simp only [List.map_cons, matchExact, atomMatch, Bool.and_eq_true,
        decide_eq_true_eq, ih, List.cons.injEq]
      constructor
      · rintro ⟨h1, h2⟩; exact ⟨h1.symm, h2⟩
      · rintro ⟨h1, h2⟩; exact ⟨h1.symm, h2⟩

/-- A bracket atom followed by literal atoms matches exactly the
corresponding characters. -/
theorem matchExact_cls (a : Char) (xs : List Char) :
    ∀ (t : List Char),
      matchExact (GAtom.cls a :: xs.map GAtom.lit) t = true ↔ t = a :: xs := by
  intro t
  cases t with
  | nil => simp [matchExact]
  | cons c cs =>
    simp only [matchExact, atomMatch, Bool.and_eq_true, decide_eq_true_eq,
      matchExact_lits, List.cons.injEq]
    constructor
    · rintro ⟨h1, h2⟩; exact ⟨h1.symm, h2⟩
    · rintro ⟨h1, h2⟩; exact ⟨h1.symm, h2⟩

/-- The character list of the generated grep pattern, for a name whose tail
is nonempty and shlex-safe. -/
theorem grepPatternOf_data_plain {name : String} {c : Char} {ctail : List Char}
    (hnd : name.data = c :: ctail) (hct : ctail ≠ [])
    (hsafe : ∀ x ∈ ctail, shlexSafeChar x = true) :
    (grepPatternOf name).data = ('[' :: c :: ']' :: ctail) ++ ['$'] := by
  unfold grepPatternOf
  rw [hnd]
  have hq : shlexQuote (String.mk ctail) = String.mk ctail :=
    shlexQuote_of_safe _ (by simpa using hct) (by simpa using hsafe)
  simp only [List.headD_cons, List.tail_cons, hq, String.data_append]
  simp

/-- Characterisation of the attach-mode query for clean names: the generated
end-anchored grep pattern matches a line exactly when the line ends with the
name. A process-list entry merely containing the name somewhere in the middle
is not matched. -/
theorem grepLineMatch_plain_iff {name : String} (line : String)
    (h : plainName name = true) :
    (grepLineMatch (grepPatternOf name) line = true ↔ name.data <:+ line.data) := by
  have hparts := Bool.and_eq_true _ _ |>.mp h
  have hlen : 2 ≤ name.data.length := by
    have := hparts.1; simpa using this
  have hall : ∀ x ∈ name.data, x.isAlphanum = true := by
    have := hparts.2; simpa [List.all_eq_true] using this
  rcases hnd : name.data with _ | ⟨c, ctail⟩
  · rw [hnd] at hlen; simp at hlen
  · have hct : ctail ≠ [] := by
      intro e; rw [hnd, e] at hlen; simp at hlen
    have hallc : ∀ x ∈ ctail, x.isAlphanum = true := fun x hx =>
      hall x (by rw [hnd]; exact List.mem_cons_of_mem _ hx)
    have hpat := grepPatternOf_data_plain hnd hct
      (fun x hx => alphanum_shlexSafe (hallc x hx))
    unfold grepLineMatch grepMatchL
    rw [hpat, List.getLast?_concat, if_pos rfl, List.dropLast_concat]
    rw [parseAtoms_bracket,
      parseAtoms_plain ctail (fun x hx => alphanum_isPlainBRE (hallc x hx))]
    simp only [Option.map_some', List.any_eq_true, hnd]
    constructor
    · rintro ⟨t, ht, hm⟩
      have hteq := (matchExact_cls c ctail t).mp hm
      rw [← hteq]
      exact (List.mem_tails _ _).mp ht
    · intro hsuf
      exact ⟨c :: ctail, (List.mem_tails _ _).mpr hsuf, (matchExact_cls c ctail _).mpr rfl⟩

/-! ### Structural lemmas about the embedded program -/

/-- All three host prerequisites are present. -/
def prereqsOk (i : Input) : Bool :=
  i.hasSdb && i.hasInfernoFlamegraph && i.hasInfernoCollapsePerf

/-- The missing list is empty exactly when all prerequisites are present. -/
theorem missingOf_isEmpty (i : Input) : (missingOf i).isEmpty = prereqsOk i := by
  obtain ⟨s, f, cl, mo, ap, na, pq, po, so, pu, ro, re, ce, bo⟩ := i
  cases s <;> cases f <;> cases cl <;> rfl

/-- Events that touch the remote device (shell commands and file pulls). -/
def isRemoteEffect : Event → Bool
  | .sdbCheckOutput _ => true
  | .sdbPopenShell _ => true
  | .sdbCheckCallShell _ => true
  | .sdbPull _ _ => true
  | _ => false

/-- Every pull event the session tail can emit transfers `PERF_TXT` onto
itself. -/
theorem sessionTail_pull {i : Input} {cmd r l : String}
    (h : Event.sdbPull r l ∈ (sessionTail i cmd).1) :
    r = PERF_TXT ∧ l = PERF_TXT := by
  unfold sessionTail at h
  by_cases h1 : i.scriptOk = false
  · rw [if_pos h1] at h
    simp [preRecordEvents] at h
  · rw [if_neg h1] at h
    by_cases h2 : i.pullOk = false
    · rw [if_pos h2] at h
      simp [preRecordEvents] at h
      exact h
    · rw [if_neg h2] at h
      by_cases h3 : i.renderOk = false
      · rw [if_pos h3] at h
        simp [preRecordEvents] at h
        exact h
      · rw [if_neg h3] at h
        simp [preRecordEvents] at h
        exact h

/-- The session tail ends in a clean exit exactly when the three checked
calls succeed. -/
theorem sessionTail_exit0_iff (i : Input) (cmd : String) :
    ((sessionTail i cmd).2 = Outcome.exited 0 ↔
      (i.scriptOk && i.pullOk && i.renderOk) = true) := by
  unfold sessionTail
  cases hs : i.scriptOk <;> cases hp : i.pullOk <;> cases hr : i.renderOk <;> simp

/-- When the render call fails, the session trace ends with the SVG file
truncation, the collapse launch and the failing render call, in that order,
and the run dies of the unhandled `CalledProcessError`. -/
theorem sessionTail_render_fail {i : Input} {cmd : String}
    (hr : i.renderOk = false)
    (hmem : Event.checkCallRender ∈ (sessionTail i cmd).1) :
    (∃ l₁, (sessionTail i cmd).1 =
      l₁ ++ [Event.openWrite SVG_FILE, Event.popenCollapse PERF_TXT,
             Event.checkCallRender]) ∧
    (sessionTail i cmd).2 = Outcome.raised "CalledProcessError" := by
  unfold sessionTail at hmem ⊢
  by_cases h1 : i.scriptOk = false
  · rw [if_pos h1] at hmem
    simp [preRecordEvents] at hmem
  · rw [if_neg h1] at hmem ⊢
    by_cases h2 : i.pullOk = false
    · rw [if_pos h2] at hmem
      simp [preRecordEvents] at hmem
    · rw [if_neg h2] at hmem ⊢
      rw [if_pos hr]
      refine ⟨⟨preRecordEvents cmd ++
        [Event.print "Pulling perf.script to host …",
         Event.sdbPull PERF_TXT PERF_TXT,
         Event.print "Generating flamegraph.svg …"], ?_⟩, rfl⟩
      simp

/-! ### Claim theorems -/

/-- C1: every mode's record command is the fixed part — which embeds the
sampling frequency `-F 99` and the output path `-o /tmp/perf.data` and holds
no target clause of its own — followed by exactly the one target clause of
that mode: the launch command after ` -- ` for spawn, `-p <pid>` for attach,
and `-a` for system-wide. -/
theorem c1_record_commands (app pid : String) :
    recordCmdSpawn app =
      "perf record -F 99 --call-graph dwarf -g -o /tmp/perf.data -- " ++ app ∧
    recordCmdAttach pid =
      "perf record -F 99 --call-graph dwarf -g -o /tmp/perf.data -p " ++ pid ∧
    recordCmdSystemWide =
      "perf record -F 99 --call-graph dwarf -g -o /tmp/perf.data -a" ∧
    strContains "perf record -F 99 --call-graph dwarf -g -o /tmp/perf.data"
      "-F 99" = true ∧
    strContains "perf record -F 99 --call-graph dwarf -g -o /tmp/perf.data"
      "-o /tmp/perf.data" = true ∧
    strContains "perf record -F 99 --call-graph dwarf -g -o /tmp/perf.data"
      " -- " = false ∧
    strContains "perf record -F 99 --call-graph dwarf -g -o /tmp/perf.data"
      " -p " = false ∧
    strContains "perf record -F 99 --call-graph dwarf -g -o /tmp/perf.data"
      " -a" = false := by
  refine ⟨?_, ?_, by decide, by decide, by decide, by decide, by decide, by decide⟩
  · unfold recordCmdSpawn
    rw [show ("perf record " ++ perf_opts ++ " -- ") =
      "perf record -F 99 --call-graph dwarf -g -o /tmp/perf.data -- " by decide]
  · unfold recordCmdAttach
    rw [show ("perf record " ++ perf_opts ++ " -p ") =
      "perf record -F 99 --call-graph dwarf -g -o /tmp/perf.data -p " by decide]

/-- C2: in system-wide mode with every checked call succeeding, the run
builds exactly `perf record -F 99 --call-graph dwarf -g -o /tmp/perf.data -a`,
requests termination on the recording handle after the keypress, converts
with `perf script -i /tmp/perf.data > /tmp/perf.script`, pulls the file to
the identical local path, truncates `/tmp/flamegraph.svg` and pipes the
collapse tool into the renderer whose output lands in that file, then exits
cleanly. -/
theorem c2_system_wide_end_to_end (i : Input)
    (hp : prereqsOk i = true) (hm : pyStrip i.modeRaw = "3")
    (hs : i.scriptOk = true) (hpl : i.pullOk = true) (hr : i.renderOk = true) :
    (mainRun i).1 =
      menuEvents ++
      [Event.print "\nStarting perf on device…",
       Event.print "Press Enter to stop recording.",
       Event.sdbPopenShell
         "perf record -F 99 --call-graph dwarf -g -o /tmp/perf.data -a",
       Event.terminateRec,
       Event.waitRec,
       Event.print "Converting perf.data -> perf.script on device…",
       Event.sdbCheckCallShell "perf script -i /tmp/perf.data > /tmp/perf.script",
       Event.print "Pulling perf.script to host …",
       Event.sdbPull "/tmp/perf.script" "/tmp/perf.script",
       Event.print "Generating flamegraph.svg …",
       Event.openWrite "/tmp/flamegraph.svg",
       Event.popenCollapse "/tmp/perf.script",
       Event.checkCallRender,
       Event.print "Flamegraph generated: /tmp/flamegraph.svg",
       Event.browserOpen "file:///tmp/flamegraph.svg"] ∧
    (mainRun i).2 = Outcome.exited 0 := by
  have hme : (missingOf i).isEmpty = true := by rw [missingOf_isEmpty]; exact hp
  unfold mainRun
  rw [if_neg (show ¬((missingOf i).isEmpty = false) by simp [hme])]
  rw [hm]
  rw [if_neg (show ¬(("3" : String) = "1") by decide)]
  rw [if_neg (show ¬(("3" : String) = "2") by decide)]
  rw [if_pos rfl]
  unfold sessionCont sessionTail
  rw [if_neg (show ¬(i.scriptOk = false) by simp [hs])]
  rw [if_neg (show ¬(i.pullOk = false) by simp [hpl])]
  rw [if_neg (show ¬(i.renderOk = false) by simp [hr])]
  exact ⟨by decide, rfl⟩

/-- Witness for C2 at a concrete input (note the ignored nonzero recording
and collapse exit statuses). -/
theorem c2_system_wide_end_to_end_witness :
    (mainRun ⟨true, true, true, "3", "", "", true, "", true, true, true,
      143, 1, true⟩).2 = Outcome.exited 0 :=
  (c2_system_wide_end_to_end
    ⟨true, true, true, "3", "", "", true, "", true, true, true, 143, 1, true⟩
    (by decide) (by decide) rfl rfl rfl).2

/-- C3: with any required host tool absent, the run reports each missing
tool with its remediation hint, exits with status 1, and the trace holds no
remote side effect. -/
theorem c3_missing_prereqs (i : Input) (h : prereqsOk i = false) :
    (mainRun i).2 = Outcome.exited 1 ∧
    (∀ e ∈ (mainRun i).1, isRemoteEffect e = false) ∧
    (i.hasSdb = false →
      Event.print ("  - sdb not found. " ++ sdbHint ++ "\n") ∈ (mainRun i).1) ∧
    ((i.hasInfernoFlamegraph && i.hasInfernoCollapsePerf) = false →
      Event.print ("  - inferno not found. " ++ infernoHint ++ "\n") ∈ (mainRun i).1) := by
  have hne : (missingOf i).isEmpty = false := by rw [missingOf_isEmpty]; exact h
  unfold mainRun
  rw [if_pos hne]
  refine ⟨rfl, ?_, ?_, ?_⟩
  · intro e he
    rcases List.mem_cons.mp he with he1 | he2
    · rw [he1]; rfl
    · obtain ⟨p, _, hpe⟩ := List.mem_map.mp he2
      rw [← hpe]; rfl
  · intro hsdb
    refine List.mem_cons_of_mem _ (List.mem_map.mpr ⟨("sdb", sdbHint), ?_, rfl⟩)
    simp [missingOf, hsdb]
  · intro hinf
    refine List.mem_cons_of_mem _ (List.mem_map.mpr ⟨("inferno", infernoHint), ?_, rfl⟩)
    simp [missingOf, hinf]

/-- Witness for C3 at a concrete input missing `sdb`. -/
theorem c3_missing_prereqs_witness :
    (mainRun ⟨false, true, true, "3", "", "", true, "", true, true, true,
      0, 0, true⟩).2 = Outcome.exited 1 :=
  (c3_missing_prereqs
    ⟨false, true, true, "3", "", "", true, "", true, true, true, 0, 0, true⟩
    (by decide)).1

/-- A Bool that is not false is true. -/
theorem bool_ne_false {b : Bool} (h : ¬(b = false)) : b = true := by
  cases b
  · exact absurd rfl h
  · rfl

/-- The recording start event is always part of the session tail. -/
theorem sessionTail_popen (i : Input) (cmd : String) :
    Event.sdbPopenShell cmd ∈ (sessionTail i cmd).1 := by
  unfold sessionTail
  by_cases h1 : i.scriptOk = false
  · rw [if_pos h1]; simp [preRecordEvents]
  · rw [if_neg h1]
    by_cases h2 : i.pullOk = false
    · rw [if_pos h2]; simp [preRecordEvents]
    · rw [if_neg h2]
      by_cases h3 : i.renderOk = false
      · rw [if_pos h3]; simp [preRecordEvents]
      · rw [if_neg h3]; simp [preRecordEvents]

/-- The session tail maps to exit status 0 exactly when the three checked
calls succeed. -/
theorem sessionTail_exitCode_iff (i : Input) (cmd : String) :
    (exitCodeOf (sessionTail i cmd).2 = 0 ↔
      (i.scriptOk && i.pullOk && i.renderOk) = true) := by
  unfold sessionTail
  cases hs : i.scriptOk <;> cases hp : i.pullOk <;> cases hr : i.renderOk <;>
    simp [exitCodeOf]

/-- In attach mode with a usable name, a successful query and an empty
(all-whitespace) query result, the run prints the no-match diagnostic and
exits with status 1 without further events. -/
theorem mainRun_attach_no_match {i : Input}
    (hp : prereqsOk i = true) (hm : pyStrip i.modeRaw = "2")
    (hn : ¬(pyStrip i.nameRaw = "")) (hq : i.psQueryOk = true)
    (ho : pyStrip i.psOut = "") :
    mainRun i =
      (menuEvents ++ [namePromptEvent,
        Event.sdbCheckOutput (psCmd (pyStrip i.nameRaw)),
        Event.print "No matching process found on device."],
       Outcome.exited 1) := by
  have hme : (missingOf i).isEmpty = true := by rw [missingOf_isEmpty]; exact hp
  unfold mainRun
  rw [if_neg (show ¬((missingOf i).isEmpty = false) by simp [hme])]
  rw [hm]
  rw [if_neg (show ¬(("2" : String) = "1") by decide)]
  rw [if_pos rfl]
  rw [if_neg hn]
  rw [if_neg (show ¬(i.psQueryOk = false) by simp [hq])]
  rw [if_pos ho]

/-- C4: in attach mode, an empty (whitespace-only) query result makes the
run exit with status 1 without ever starting a recording process. -/
theorem c4_attach_no_match_aborts (i : Input)
    (hp : prereqsOk i = true) (hm : pyStrip i.modeRaw = "2")
    (hn : ¬(pyStrip i.nameRaw = "")) (hq : i.psQueryOk = true)
    (ho : pyStrip i.psOut = "") :
    (mainRun i).2 = Outcome.exited 1 ∧
    (∀ c, Event.sdbPopenShell c ∉ (mainRun i).1) := by
  rw [mainRun_attach_no_match hp hm hn hq ho]
  refine ⟨rfl, ?_⟩
  intro c hc
  simp [menuEvents, namePromptEvent] at hc

/-- Witness for C4 at a concrete input whose query output is whitespace. -/
theorem c4_attach_no_match_aborts_witness :
    (mainRun ⟨true, true, true, "2", "", "rayvision", true, "  \n",
      true, true, true, 0, 0, true⟩).2 = Outcome.exited 1 :=
  (c4_attach_no_match_aborts
    ⟨true, true, true, "2", "", "rayvision", true, "  \n",
      true, true, true, 0, 0, true⟩
    (by decide) (by decide) (by decide) (by decide) (by decide)).1

/-- C5: when the first line of the query output has a first token `t`, the
attach branch resolves exactly `t` as the PID — later lines never matter —
prints it, and starts `perf record … -p t`. -/
theorem c5_pid_is_first_token_of_first_line (i : Input)
    (hp : prereqsOk i = true) (hm : pyStrip i.modeRaw = "2")
    (hn : ¬(pyStrip i.nameRaw = "")) (hq : i.psQueryOk = true)
    (t : String) (ts : List String)
    (hfl : pySplit (firstLine i.psOut) = t :: ts) :
    Event.print ("Found PID " ++ t) ∈ (mainRun i).1 ∧
    Event.sdbPopenShell (recordCmdAttach t) ∈ (mainRun i).1 := by
  have ho : ¬(pyStrip i.psOut = "") := by
    intro he
    have hws := (pyStrip_eq_empty_iff _).mp he
    have hnil : pySplit (firstLine i.psOut) = [] := by
      rw [pySplit_eq_nil_iff]
      intro c hc
      exact hws c (List.takeWhile_subset _ hc)
    rw [hfl] at hnil
    cases hnil
  obtain ⟨rest, hsplit⟩ := pySplit_head_of_firstLine hfl
  have hme : (missingOf i).isEmpty = true := by rw [missingOf_isEmpty]; exact hp
  unfold mainRun
  rw [if_neg (show ¬((missingOf i).isEmpty = false) by simp [hme])]
  rw [hm]
  rw [if_neg (show ¬(("2" : String) = "1") by decide)]
  rw [if_pos rfl]
  rw [if_neg hn]
  rw [if_neg (show ¬(i.psQueryOk = false) by simp [hq])]
  rw [if_neg ho]
  rw [hsplit]
  constructor
  · show Event.print ("Found PID " ++ t) ∈ (sessionCont i _ (recordCmdAttach t)).1
    unfold sessionCont
    refine List.mem_append.mpr (Or.inl ?_)
    simp
  · show Event.sdbPopenShell (recordCmdAttach t) ∈
      (sessionCont i _ (recordCmdAttach t)).1
    unfold sessionCont
    exact List.mem_append.mpr (Or.inr (sessionTail_popen i (recordCmdAttach t)))

/-- Witness for C5: the query output has two matching lines; the PID comes
from the first. -/
theorem c5_pid_is_first_token_of_first_line_witness :
    Event.sdbPopenShell (recordCmdAttach "1234") ∈
      (mainRun ⟨true, true, true, "2", "", "rayvision", true,
        " 1234 rayvision /usr/bin/rayvision\n 5678 rayvision2 /usr/bin/rayvision",
        true, true, true, 0, 0, true⟩).1 :=
  (c5_pid_is_first_token_of_first_line
    ⟨true, true, true, "2", "", "rayvision", true,
      " 1234 rayvision /usr/bin/rayvision\n 5678 rayvision2 /usr/bin/rayvision",
      true, true, true, 0, 0, true⟩
    (by decide) (by decide) (by decide) (by decide)
    "1234" ["rayvision", "/usr/bin/rayvision"] (by decide)).2

/-- C9: in attach mode an empty or all-whitespace process name makes
`name[0]` raise `IndexError` before any remote command — in particular
before the process-list query — instead of reaching the diagnostic path. -/
theorem c9_attach_empty_name_raises (i : Input)
    (hp : prereqsOk i = true) (hm : pyStrip i.modeRaw = "2")
    (hn : pyStrip i.nameRaw = "") :
    (mainRun i).2 = Outcome.raised "IndexError" ∧
    (∀ e ∈ (mainRun i).1, isRemoteEffect e = false) := by
  have hme : (missingOf i).isEmpty = true := by rw [missingOf_isEmpty]; exact hp
  unfold mainRun
  rw [if_neg (show ¬((missingOf i).isEmpty = false) by simp [hme])]
  rw [hm]
  rw [if_neg (show ¬(("2" : String) = "1") by decide)]
  rw [if_pos rfl]
  rw [if_pos hn]
  refine ⟨rfl, ?_⟩
  intro e he
  simp [menuEvents, namePromptEvent] at he
  rcases he with h | h | h | h | h | h <;> rw [h] <;> rfl

/-- Witness for C9 at a whitespace-only name. -/
theorem c9_attach_empty_name_raises_witness :
    (mainRun ⟨true, true, true, "2", "", "   ", true, "",
      true, true, true, 0, 0, true⟩).2 = Outcome.raised "IndexError" :=
  (c9_attach_empty_name_raises
    ⟨true, true, true, "2", "", "   ", true, "", true, true, true, 0, 0, true⟩
    (by decide) (by decide) (by decide)).1

/-- C6 counterexample: the generated query is end-anchored, so a process
entry that merely contains the name substring in the middle is not matched.
The line below contains `foo`, yet the command the program sends greps with
the pattern `[f]oo$`, which does not match the line. -/
theorem c6_containment_counterexample :
    psCmd "foo" = "ps -eo pid,comm,args | grep '[f]oo$'" ∧
    strContains "9999 foo /usr/bin/foo --daemon" "foo" = true ∧
    grepLineMatch (grepPatternOf "foo") "9999 foo /usr/bin/foo --daemon" = false :=
  ⟨by decide, by decide, by decide⟩

/-- C6 (amended): in attach mode the user string is matched end-anchored:
for clean names (at least two alphanumeric characters) a process-list entry
matches the generated grep pattern exactly when the entry ends with the
name; and an empty query result still aborts the session with status 1. -/
theorem c6_attach_query_amended :
    (∀ name line : String, plainName name = true →
      (grepLineMatch (grepPatternOf name) line = true ↔
        name.data <:+ line.data)) ∧
    (∀ i : Input, prereqsOk i = true → pyStrip i.modeRaw = "2" →
      ¬(pyStrip i.nameRaw = "") → i.psQueryOk = true →
      pyStrip i.psOut = "" → (mainRun i).2 = Outcome.exited 1) := by
  constructor
  · intro name line h
    exact grepLineMatch_plain_iff line h
  · intro i hp hm hn hq ho
    rw [mainRun_attach_no_match hp hm hn hq ho]

/-- Witness for C6 (amended): an entry ending with the name matches; an
empty query result exits with status 1. -/
theorem c6_attach_query_amended_witness :
    grepLineMatch (grepPatternOf "foo") "9999 foo /usr/bin/foo" = true ∧
    (mainRun ⟨true, true, true, "2", "", "foo", true, " \n ",
      true, true, true, 0, 0, true⟩).2 = Outcome.exited 1 :=
  ⟨(c6_attach_query_amended.1 "foo" "9999 foo /usr/bin/foo" (by decide)).mpr
      (by decide),
   c6_attach_query_amended.2
     ⟨true, true, true, "2", "", "foo", true, " \n ", true, true, true,
       0, 0, true⟩
     (by decide) (by decide) (by decide) (by decide) (by decide)⟩

/-- C7: every pull the program can ever issue copies the remote textual
artifact `/tmp/perf.script` to the identical local path — no renaming. -/
theorem c7_pull_destination_equals_remote (i : Input) (r l : String)
    (h : Event.sdbPull r l ∈ (mainRun i).1) :
    r = PERF_TXT ∧ l = PERF_TXT := by
  unfold mainRun at h
  split at h
  · simp [reportEvents] at h
  · split at h
    · unfold sessionCont at h
      rcases List.mem_append.mp h with h1 | h1
      · simp [menuEvents] at h1
      · exact sessionTail_pull h1
    · split at h
      · split at h
        · simp [menuEvents, namePromptEvent] at h
        · split at h
          · simp [menuEvents, namePromptEvent] at h
          · split at h
            · simp [menuEvents, namePromptEvent] at h
            · split at h
              · simp [menuEvents, namePromptEvent] at h
              · unfold sessionCont at h
                rcases List.mem_append.mp h with h1 | h1
                · simp [menuEvents, namePromptEvent] at h1
                · exact sessionTail_pull h1
      · split at h
        · unfold sessionCont at h
          rcases List.mem_append.mp h with h1 | h1
          · simp [menuEvents] at h1
          · exact sessionTail_pull h1
        · simp [menuEvents] at h

/-- Witness for C7 on the system-wide happy path. -/
theorem c7_pull_destination_equals_remote_witness :
    ("/tmp/perf.script" : String) = PERF_TXT ∧
    ("/tmp/perf.script" : String) = PERF_TXT :=
  c7_pull_destination_equals_remote
    ⟨true, true, true, "3", "", "", true, "", true, true, true, 0, 0, true⟩
    "/tmp/perf.script" "/tmp/perf.script" (by decide)

/-- Full success as the source defines it: prerequisites present, a
recognised mode, for attach mode a nonempty stripped name, a successful
query with a non-whitespace result, and the three checked external calls
(remote conversion, pull, render) succeeding. The recording process's exit
status, the collapse process's exit status and the viewer result are never
consulted. -/
def fullSuccess (i : Input) : Bool :=
  prereqsOk i &&
  (if pyStrip i.modeRaw = "1" then true
   else if pyStrip i.modeRaw = "2" then
     !(decide (pyStrip i.nameRaw = "")) && i.psQueryOk &&
       !(decide (pyStrip i.psOut = ""))
   else decide (pyStrip i.modeRaw = "3")) &&
  i.scriptOk && i.pullOk && i.renderOk

/-- C8 counterexample: the recording process is terminated (nonzero exit
status) and the collapse tool fails (exit status 1), yet the run still exits
with status 0 — the program never consults either status, refuting "non-zero
on any invoked external tool returning a non-zero status". -/
theorem c8_tool_failure_counterexample :
    (⟨true, true, true, "3", "", "", true, "", true, true, true,
      143, 1, true⟩ : Input).recExitCode ≠ 0 ∧
    (⟨true, true, true, "3", "", "", true, "", true, true, true,
      143, 1, true⟩ : Input).collapseExitCode ≠ 0 ∧
    exitCodeOf (mainRun ⟨true, true, true, "3", "", "", true, "", true, true,
      true, 143, 1, true⟩).2 = 0 :=
  ⟨by decide, by decide, by decide⟩

/-- C8 (amended): the exit status is 0 exactly on full success — missing
prerequisites, an invalid mode, an empty attach name, a failed or empty
query, or a failing checked call (conversion, pull, render) all yield a
nonzero status, while the terminated recording process's status, the
collapse tool's status and a viewer failure leave the status untouched. -/
theorem c8_exit_zero_iff_full_success (i : Input) :
    (exitCodeOf (mainRun i).2 = 0 ↔ fullSuccess i = true) := by
  unfold mainRun
  split
  next hc =>
    rw [missingOf_isEmpty] at hc
    simp [exitCodeOf, fullSuccess, hc]
  next hc =>
    have hpre : prereqsOk i = true := by
      rw [← missingOf_isEmpty]; exact bool_ne_false hc
    split
    next h1 =>
      show exitCodeOf (sessionTail i _).2 = 0 ↔ _
      rw [sessionTail_exitCode_iff]
      simp [fullSuccess, hpre, h1, Bool.and_eq_true, and_assoc]
    next h1 =>
      split
      next h2 =>
        split
        next hname =>
          simp [exitCodeOf, fullSuccess, hpre, h1, h2, hname]
        next hname =>
          split
          next hquery =>
            simp [exitCodeOf, fullSuccess, hpre, h1, h2, hname, hquery]
          next hquery =>
            have hq : i.psQueryOk = true := bool_ne_false hquery
            split
            next hout =>
              simp [exitCodeOf, fullSuccess, hpre, h1, h2, hname, hout, hq]
            next hout =>
              split
              next heq =>
                exact absurd heq
                  (pySplit_ne_nil_of_strip_ne_empty (fun e => hout e))
              next pid rest heq =>
                show exitCodeOf (sessionTail i _).2 = 0 ↔ _
                rw [sessionTail_exitCode_iff]
                simp [fullSuccess, hpre, h1, h2, hname, hout, hq,
                  Bool.and_eq_true, and_assoc]
      next h2 =>
        split
        next h3 =>
          show exitCodeOf (sessionTail i _).2 = 0 ↔ _
          rw [sessionTail_exitCode_iff]
          simp [fullSuccess, hpre, h1, h2, h3, Bool.and_eq_true, and_assoc]
        next h3 =>
          simp [exitCodeOf, fullSuccess, hpre, h1, h2, h3]

/-- Either the run reaches a session tail after a render-free prefix, or
its trace holds no render call at all. -/
theorem mainRun_session_shape (i : Input) :
    (∃ pre cmd, mainRun i = (pre ++ (sessionTail i cmd).1, (sessionTail i cmd).2) ∧
      Event.checkCallRender ∉ pre) ∨
    (Event.checkCallRender ∉ (mainRun i).1) := by
  unfold mainRun
  split
  · right; simp [reportEvents]
  · split
    · left
      exact ⟨menuEvents ++ [Event.print "Enter app launch command (on device): "],
        recordCmdSpawn (pyStrip i.appRaw), rfl, by simp [menuEvents]⟩
    · split
      · split
        · right; simp [menuEvents, namePromptEvent]
        · split
          · right; simp [menuEvents, namePromptEvent]
          · split
            · right; simp [menuEvents, namePromptEvent]
            · split
              · right; simp [menuEvents, namePromptEvent]
              · next pid rest heq =>
                left
                exact ⟨menuEvents ++ [namePromptEvent,
                  Event.sdbCheckOutput (psCmd (pyStrip i.nameRaw)),
                  Event.print ("Found PID " ++ pid)],
                  recordCmdAttach pid, rfl,
                  by simp [menuEvents, namePromptEvent]⟩
      · split
        · left
          exact ⟨menuEvents, recordCmdSystemWide, rfl, by simp [menuEvents]⟩
        · right; simp [menuEvents]

/-- C10: whenever the render call fails, the trace already holds the
truncating open of `/tmp/flamegraph.svg` followed by the collapse launch and
the failing render call as its final three events, and the run dies with a
nonzero status: the rendering stage is not atomic with respect to the local
image file. -/
theorem c10_svg_truncated_before_render (i : Input)
    (hr : i.renderOk = false)
    (hmem : Event.checkCallRender ∈ (mainRun i).1) :
    (∃ l₁, (mainRun i).1 =
      l₁ ++ [Event.openWrite SVG_FILE, Event.popenCollapse PERF_TXT,
             Event.checkCallRender]) ∧
    exitCodeOf (mainRun i).2 ≠ 0 := by
  rcases mainRun_session_shape i with ⟨pre, cmd, hEq, hpre⟩ | hno
  · rw [hEq] at hmem ⊢
    rcases List.mem_append.mp hmem with h1 | h1
    · exact absurd h1 hpre
    · obtain ⟨⟨l₁, htr⟩, hout⟩ := sessionTail_render_fail hr h1
      refine ⟨⟨pre ++ l₁, ?_⟩, ?_⟩
      · show pre ++ (sessionTail i cmd).1 = _
        rw [htr, List.append_assoc]
      · show exitCodeOf (sessionTail i cmd).2 ≠ 0
        rw [hout]
        decide
  · exact absurd hmem hno

/-- Witness for C10 on the system-wide path with a failing render call. -/
theorem c10_svg_truncated_before_render_witness :
    exitCodeOf (mainRun ⟨true, true, true, "3", "", "", true, "",
      true, true, false, 0, 0, true⟩).2 ≠ 0 :=
  (c10_svg_truncated_before_render
    ⟨true, true, true, "3", "", "", true, "", true, true, false, 0, 0, true⟩
    rfl (by decide)).2
